import Mathlib

/-!
Verification of the order-lifecycle core of the campus-marketplace backend.

The definitions below are a shallow embedding of the JavaScript sources:

* `src/utils/OrderStateMachine.js` — the pure order state machine
  (`validTransitions`, `cancellableStatuses`, `nonCancellableStatuses`,
  `isValidTransition`, `getAllowedTransitions`, `canCancel`, `cannotCancel`,
  `validateStatusTransition`, `validateCancellation`);
* `src/repositories/OrderRepository.js` — the persistence layer, modelled as
  pure functions over an explicit in-memory database state `DB`;
* the `OrderService` class (`createSellOrder`, `updateOrderStatus`,
  `cancelOrder`) — the workflow service orchestrating the two.

Statuses and listing types are JavaScript strings, so they are embedded as
`String` (the state machine is called on arbitrary strings, not only the
eight enum values). Ids are embedded as `Nat`, prices as `Int`. Errors are
embedded as an inductive `ErrKind` whose constructors correspond to the
distinct error sites of the service and the state machine.
-/

/-- Error kinds raised by the order workflow. Each constructor corresponds to
one distinct error site in the sources:
`NotAParticipant` = ForbiddenError at a missing student profile;
`InactiveAccount` = ForbiddenError for an inactive student;
`NotFound` = NotFoundError for a missing listing or order;
`Unavailable`, `WrongListingType`, `SelfTrade`, `DuplicateActiveOrder` =
BadRequestError at the corresponding createSellOrder checks;
`InvalidTransition` = the error thrown by `validateStatusTransition`;
`CancellationNotAllowed` = the error thrown by `validateCancellation`;
`NotAuthorized` = ForbiddenError at the role checks of
`updateOrderStatus` / `cancelOrder`. -/
inductive ErrKind where
  | NotAParticipant
  | InactiveAccount
  | NotFound
  | Unavailable
  | WrongListingType
  | SelfTrade
  | DuplicateActiveOrder
  | InvalidTransition
  | CancellationNotAllowed
  | NotAuthorized
deriving DecidableEq, Repr

/-- The `validTransitions` object of `OrderStateMachine.js`: a partial map from
a current status to the array of allowed next statuses. An unknown key yields
`none` (JavaScript `undefined`). -/
def validTransitionsLookup (s : String) : Option (List String) :=
  if s = "PENDING" then some ["NEGOTIATING", "CANCELLED"]
  else if s = "NEGOTIATING" then some ["APPROVED", "REJECTED", "CANCELLED"]
  else if s = "APPROVED" then some ["PAYMENT_PENDING", "CANCELLED"]
  else if s = "PAYMENT_PENDING" then some ["PAID", "CANCELLED"]
  else if s = "PAID" then some ["COMPLETED"]
  else if s = "COMPLETED" then some []
  else if s = "REJECTED" then some []
  else if s = "CANCELLED" then some []
  else none

/-- `isValidTransition` of `OrderStateMachine.js`: looks up the current status
in the table and tests membership of the new status; unknown current statuses
yield `false`. -/
def isValidTransition (currentStatus newStatus : String) : Bool :=
  match validTransitionsLookup currentStatus with
  | some allowed => allowed.contains newStatus
  | none => false

/-- `getAllowedTransitions` of `OrderStateMachine.js`: the table entry, or the
empty array for unknown statuses. -/
def getAllowedTransitions (currentStatus : String) : List String :=
  (validTransitionsLookup currentStatus).getD []

/-- The `cancellableStatuses` array of `OrderStateMachine.js`. -/
def cancellableStatuses : List String :=
  ["PENDING", "NEGOTIATING", "APPROVED", "PAYMENT_PENDING"]

/-- The `nonCancellableStatuses` array of `OrderStateMachine.js`. -/
def nonCancellableStatuses : List String :=
  ["PAID", "COMPLETED", "REJECTED", "CANCELLED"]

/-- `canCancel` of `OrderStateMachine.js`. -/
def canCancel (currentStatus : String) : Bool :=
  cancellableStatuses.contains currentStatus

/-- `cannotCancel` of `OrderStateMachine.js`. -/
def cannotCancel (currentStatus : String) : Bool :=
  nonCancellableStatuses.contains currentStatus

/-- `validateStatusTransition` of `OrderStateMachine.js`: throws unless the
transition is in the table. -/
def validateStatusTransition (currentStatus newStatus : String) :
    Except ErrKind Unit :=
  if !(isValidTransition currentStatus newStatus) then
    Except.error ErrKind.InvalidTransition
  else
    Except.ok ()

/-- `validateCancellation` of `OrderStateMachine.js`: throws when
`cannotCancel` holds of the current status (note: the blacklist
`nonCancellableStatuses`, not the negation of `canCancel`). -/
def validateCancellation (currentStatus : String) : Except ErrKind Unit :=
  if cannotCancel currentStatus then
    Except.error ErrKind.CancellationNotAllowed
  else
    Except.ok ()

/-- The eight members of the `OrderStatus` enum of `OrderStateMachine.js`. -/
def orderStatusValues : List String :=
  ["PENDING", "NEGOTIATING", "APPROVED", "REJECTED",
   "PAYMENT_PENDING", "PAID", "COMPLETED", "CANCELLED"]

/-- A marketplace participant (`Student` row): identity id, owning user id,
and the active flag checked by `createSellOrder`. -/
structure Student where
  id : Nat
  userId : Nat
  isActive : Bool
deriving DecidableEq, Repr

/-- A `Listing` row, restricted to the fields the order workflow reads. -/
structure Listing where
  id : Nat
  ownerId : Nat
  isAvailable : Bool
  listingType : String
  price : Int
deriving DecidableEq, Repr

/-- An `Order` row, restricted to the fields the order workflow reads and
writes. -/
structure Order where
  id : Nat
  listingId : Nat
  buyerId : Nat
  sellerId : Nat
  type : String
  status : String
  totalPrice : Int
deriving DecidableEq, Repr

/-- The persistent store behind `OrderRepository`: the three tables, plus a
counter supplying fresh order ids. -/
structure DB where
  students : List Student
  listings : List Listing
  orders : List Order
  nextOrderId : Nat
deriving DecidableEq, Repr

/-- `OrderRepository.findStudentByUserId`: unique lookup by `userId`. -/
def findStudentByUserId (db : DB) (userId : Nat) : Option Student :=
  db.students.find? (fun s => s.userId == userId)

/-- `OrderRepository.findListingById`: unique lookup by listing id. -/
def findListingById (db : DB) (listingId : Nat) : Option Listing :=
  db.listings.find? (fun l => l.id == listingId)

/-- `OrderRepository.findOrderById`: unique lookup by order id. -/
def findOrderById (db : DB) (orderId : Nat) : Option Order :=
  db.orders.find? (fun o => o.id == orderId)

/-- The status list of the `status: { in: [...] }` filter in
`OrderRepository.findActiveOrdersByBuyerAndListing` — exactly the four
pre-paid statuses; `PAID` is not in the query. -/
def activeOrderQueryStatuses : List String :=
  ["PENDING", "NEGOTIATING", "APPROVED", "PAYMENT_PENDING"]

/-- `OrderRepository.findActiveOrdersByBuyerAndListing`: all orders of the
buyer on the listing whose status is in `activeOrderQueryStatuses`. -/
def findActiveOrdersByBuyerAndListing (db : DB) (buyerId listingId : Nat) :
    List Order :=
  db.orders.filter (fun o =>
    o.buyerId == buyerId && o.listingId == listingId &&
      activeOrderQueryStatuses.contains o.status)

/-- `OrderRepository.createOrder`: inserts a new order row built from the
given data, returning the row and the new store. -/
def createOrderRepo (db : DB) (listingId buyerId sellerId : Nat)
    (type status : String) (totalPrice : Int) : Order × DB :=
  let o : Order :=
    { id := db.nextOrderId, listingId := listingId, buyerId := buyerId,
      sellerId := sellerId, type := type, status := status,
      totalPrice := totalPrice }
  (o, { db with orders := db.orders ++ [o], nextOrderId := db.nextOrderId + 1 })

/-- `OrderRepository.updateOrderStatus`: sets the status of the row with the
given order id. -/
def updateOrderStatusRepo (db : DB) (orderId : Nat) (status : String) : DB :=
  { db with
    orders := db.orders.map (fun o =>
      if o.id == orderId then { o with status := status } else o) }

/-- `OrderRepository.updateListingAvailability`: sets `isAvailable` of the
row with the given listing id. -/
def updateListingAvailability (db : DB) (listingId : Nat)
    (isAvailable : Bool) : DB :=
  { db with
    listings := db.listings.map (fun l =>
      if l.id == listingId then { l with isAvailable := isAvailable } else l) }

/-- `OrderService.createSellOrder`: the seven precondition checks in source
order, then the insertion of a new PENDING SELL order priced at the
listing's current price, with `sellerId` copied from `listing.ownerId`. -/
def createSellOrder (db : DB) (listingId buyerUserId : Nat) :
    Except ErrKind (Order × DB) :=
  match findStudentByUserId db buyerUserId with
  | none => Except.error ErrKind.NotAParticipant
  | some buyerStudent =>
    if !buyerStudent.isActive then Except.error ErrKind.InactiveAccount
    else
      match findListingById db listingId with
      | none => Except.error ErrKind.NotFound
      | some listing =>
        if !listing.isAvailable then Except.error ErrKind.Unavailable
        else if listing.listingType != "SELL" && listing.listingType != "BOTH" then
          Except.error ErrKind.WrongListingType
        else if listing.ownerId == buyerStudent.id then
          Except.error ErrKind.SelfTrade
        else if (findActiveOrdersByBuyerAndListing db buyerStudent.id listingId).length > 0 then
          Except.error ErrKind.DuplicateActiveOrder
        else
          Except.ok (createOrderRepo db listing.id buyerStudent.id
            listing.ownerId "SELL" "PENDING" listing.price)

/-- `OrderService.updateOrderStatus`: load order, load actor's student
profile, validate the transition, apply the seller-only overlay for
APPROVED/REJECTED, persist the status, and flip the listing to unavailable
when the new status is COMPLETED. -/
def updateOrderStatus (db : DB) (orderId : Nat) (newStatus : String)
    (userId : Nat) : Except ErrKind (Order × DB) :=
  match findOrderById db orderId with
  | none => Except.error ErrKind.NotFound
  | some order =>
    match findStudentByUserId db userId with
    | none => Except.error ErrKind.NotAParticipant
    | some student =>
      let isSeller := order.sellerId == student.id
      match validateStatusTransition order.status newStatus with
      | Except.error e => Except.error e
      | Except.ok _ =>
        if (newStatus == "APPROVED" || newStatus == "REJECTED") && !isSeller then
          Except.error ErrKind.NotAuthorized
        else
          let db1 := updateOrderStatusRepo db orderId newStatus
          let db2 :=
            if newStatus == "COMPLETED" then
              updateListingAvailability db1 order.listingId false
            else db1
          Except.ok ({ order with status := newStatus }, db2)

/-- `OrderService.cancelOrder`: load order, load actor's student profile,
validate cancellability, require the actor to be the order's buyer or
seller, persist CANCELLED. There is no listing side effect. -/
def cancelOrder (db : DB) (orderId userId : Nat) :
    Except ErrKind (Order × DB) :=
  match findOrderById db orderId with
  | none => Except.error ErrKind.NotFound
  | some order =>
    match findStudentByUserId db userId with
    | none => Except.error ErrKind.NotAParticipant
    | some student =>
      match validateCancellation order.status with
      | Except.error e => Except.error e
      | Except.ok _ =>
        let isBuyer := order.buyerId == student.id
        let isSeller := order.sellerId == student.id
        if !isBuyer && !isSeller then
          Except.error ErrKind.NotAuthorized
        else
          Except.ok ({ order with status := "CANCELLED" },
            updateOrderStatusRepo db orderId "CANCELLED")

/-- Boolean success test for `Except` results of the workflow. -/
def exceptIsOk (r : Except ErrKind (Order × DB)) : Bool :=
  match r with
  | Except.ok _ => true
  | Except.error _ => false

deriving instance DecidableEq for Except

/-- A store in which buyer 1 (user 101) already holds a PAID order on
listing 10, owned by student 2 (user 102). -/
def dbPaidOrder : DB :=
  { students := [{ id := 1, userId := 101, isActive := true },
                 { id := 2, userId := 102, isActive := true }],
    listings := [{ id := 10, ownerId := 2, isAvailable := true,
                   listingType := "SELL", price := 100 }],
    orders := [{ id := 0, listingId := 10, buyerId := 1, sellerId := 2,
                 type := "SELL", status := "PAID", totalPrice := 100 }],
    nextOrderId := 1 }

/-- A store in which buyer 1 (user 101) already holds a PENDING order on
listing 10, owned by student 2 (user 102). -/
def dbPendingOrder : DB :=
  { students := [{ id := 1, userId := 101, isActive := true },
                 { id := 2, userId := 102, isActive := true }],
    listings := [{ id := 10, ownerId := 2, isAvailable := true,
                   listingType := "SELL", price := 100 }],
    orders := [{ id := 0, listingId := 10, buyerId := 1, sellerId := 2,
                 type := "SELL", status := "PENDING", totalPrice := 100 }],
    nextOrderId := 1 }

/-- Claim C3: `isValidTransition current next` is true exactly when the pair
is in the fixed table PENDING→{NEGOTIATING, CANCELLED},
NEGOTIATING→{APPROVED, REJECTED, CANCELLED}, APPROVED→{PAYMENT_PENDING,
CANCELLED}, PAYMENT_PENDING→{PAID, CANCELLED}, PAID→{COMPLETED}; every other
pair of strings — same-status pairs, state-skipping pairs, unknown current
statuses — yields false. -/
theorem isValidTransition_iff_table (c n : String) :
    isValidTransition c n = true ↔
      ((c = "PENDING" ∧ (n = "NEGOTIATING" ∨ n = "CANCELLED")) ∨
       (c = "NEGOTIATING" ∧ (n = "APPROVED" ∨ n = "REJECTED" ∨ n = "CANCELLED")) ∨
       (c = "APPROVED" ∧ (n = "PAYMENT_PENDING" ∨ n = "CANCELLED")) ∨
       (c = "PAYMENT_PENDING" ∧ (n = "PAID" ∨ n = "CANCELLED")) ∨
       (c = "PAID" ∧ n = "COMPLETED")) := by
  unfold isValidTransition validTransitionsLookup
  split_ifs with h1 h2 h3 h4 h5 h6 h7 h8 <;>
    simp_all [List.contains, List.elem_eq_mem, List.mem_cons, or_comm]

/-- Claim C8: `canCancel s` is true exactly when `s` is one of the four
pre-paid statuses PENDING, NEGOTIATING, APPROVED, PAYMENT_PENDING; it is
false for every other string, in particular for PAID, COMPLETED, REJECTED
and CANCELLED. -/
theorem canCancel_iff_prePaid (s : String) :
    canCancel s = true ↔
      (s = "PENDING" ∨ s = "NEGOTIATING" ∨ s = "APPROVED" ∨
       s = "PAYMENT_PENDING") := by
  unfold canCancel cancellableStatuses
  simp [List.contains, List.elem_eq_mem, List.mem_cons]

/-- Claim C1 (counterexample): buyer 1 holds a non-terminal (PAID) order on
listing 10 in `dbPaidOrder`, yet `createSellOrder` does not fail with
`DuplicateActiveOrder` — the duplicate-detection query of
`OrderRepository.findActiveOrdersByBuyerAndListing` covers only the four
pre-paid statuses, so a PAID order does not block a new order. -/
theorem createSellOrder_paid_not_blocking :
    (dbPaidOrder.orders.any (fun o =>
        o.buyerId == 1 && o.listingId == 10 &&
          !(["REJECTED", "CANCELLED", "COMPLETED"].contains o.status))) = true ∧
    createSellOrder dbPaidOrder 10 101 ≠
      Except.error ErrKind.DuplicateActiveOrder := by
  decide

/-- Claim C1 (amended): when the buyer resolves to an active student and the
listing passes the availability, type and self-trade checks,
`createSellOrder` fails with `DuplicateActiveOrder` exactly when the buyer
already holds an order against the listing whose status is in the pre-paid
set {PENDING, NEGOTIATING, APPROVED, PAYMENT_PENDING}; a PAID order does not
block. -/
theorem createSellOrder_duplicate_iff_prePaid
    (db : DB) (listingId buyerUserId : Nat) (s : Student) (l : Listing)
    (hs : findStudentByUserId db buyerUserId = some s)
    (hactive : s.isActive = true)
    (hl : findListingById db listingId = some l)
    (havail : l.isAvailable = true)
    (htype : l.listingType = "SELL" ∨ l.listingType = "BOTH")
    (howner : l.ownerId ≠ s.id) :
    createSellOrder db listingId buyerUserId =
        Except.error ErrKind.DuplicateActiveOrder ↔
      ∃ o ∈ db.orders, o.buyerId = s.id ∧ o.listingId = listingId ∧
        (o.status = "PENDING" ∨ o.status = "NEGOTIATING" ∨
         o.status = "APPROVED" ∨ o.status = "PAYMENT_PENDING") := by
  unfold createSellOrder
  rw [hs, hl]
  rcases htype with ht | ht <;>
    simp [hactive, havail, ht, howner, findActiveOrdersByBuyerAndListing,
      activeOrderQueryStatuses, List.length_pos_iff_exists_mem,
      List.mem_filter, List.contains, List.elem_eq_mem, and_assoc,
      beq_eq_false_iff_ne, Ne.symm howner] <;>
    (constructor <;> rintro ⟨o, ho, hb, hlid, hst⟩ <;>
      exact ⟨o, ho, hb, hlid, by tauto⟩)

/-- Claim C1 (witness for the amended theorem): in `dbPendingOrder` the same
buyer holds a PENDING order on the listing, and the second
`createSellOrder` call fails with `DuplicateActiveOrder`. -/
theorem createSellOrder_duplicate_iff_prePaid_witness :
    createSellOrder dbPendingOrder 10 101 =
      Except.error ErrKind.DuplicateActiveOrder :=
  (createSellOrder_duplicate_iff_prePaid dbPendingOrder 10 101
      { id := 1, userId := 101, isActive := true }
      { id := 10, ownerId := 2, isAvailable := true,
        listingType := "SELL", price := 100 }
      (by decide) (by decide) (by decide) (by decide)
      (Or.inl (by decide)) (by decide)).mpr
    ⟨{ id := 0, listingId := 10, buyerId := 1, sellerId := 2,
       type := "SELL", status := "PENDING", totalPrice := 100 },
     by decide, by decide, by decide, Or.inl (by decide)⟩

/-- Claim C2 (counterexample): for the status string ON_HOLD — which is not
one of the eight enum values — `canCancel` does not hold, yet
`validateCancellation` succeeds, because it tests the blacklist
`cannotCancel` rather than the negation of `canCancel`. -/
theorem validateCancellation_unknown_status :
    canCancel ("ON_HOLD") = false ∧
    validateCancellation ("ON_HOLD") = Except.ok () := by
  decide

/-- Claim C2 (amended): `validateCancellation` fails with
`CancellationNotAllowed` exactly when the status is one of PAID, COMPLETED,
REJECTED, CANCELLED (the `nonCancellableStatuses` blacklist). On the eight
enum values this coincides with the failure of `canCancel`, but a status
string outside the enum never fails. -/
theorem validateCancellation_error_iff (s : String) :
    validateCancellation s = Except.error ErrKind.CancellationNotAllowed ↔
      (s = "PAID" ∨ s = "COMPLETED" ∨ s = "REJECTED" ∨ s = "CANCELLED") := by
  unfold validateCancellation cannotCancel nonCancellableStatuses
  split_ifs with h <;>
    simp_all [List.contains, List.elem_eq_mem, List.mem_cons]

/-- Claim C4: `createSellOrder` checks its seven preconditions in source
order, each failing fast with its own error kind — missing student profile,
inactive student, missing listing, unavailable listing, wrong listing type,
self-trade, duplicate active order — and when all pass it persists a new
order with status PENDING, type SELL, totalPrice equal to the listing's
current price, sellerId copied from the listing's owner, appended to the
order table. -/
theorem createSellOrder_checks_in_order
    (db : DB) (listingId buyerUserId : Nat) :
    (findStudentByUserId db buyerUserId = none →
      createSellOrder db listingId buyerUserId =
        Except.error ErrKind.NotAParticipant) ∧
    (∀ s, findStudentByUserId db buyerUserId = some s →
      s.isActive = false →
      createSellOrder db listingId buyerUserId =
        Except.error ErrKind.InactiveAccount) ∧
    (∀ s, findStudentByUserId db buyerUserId = some s →
      s.isActive = true →
      findListingById db listingId = none →
      createSellOrder db listingId buyerUserId =
        Except.error ErrKind.NotFound) ∧
    (∀ s l, findStudentByUserId db buyerUserId = some s →
      s.isActive = true →
      findListingById db listingId = some l →
      l.isAvailable = false →
      createSellOrder db listingId buyerUserId =
        Except.error ErrKind.Unavailable) ∧
    (∀ s l, findStudentByUserId db buyerUserId = some s →
      s.isActive = true →
      findListingById db listingId = some l →
      l.isAvailable = true →
      l.listingType ≠ "SELL" → l.listingType ≠ "BOTH" →
      createSellOrder db listingId buyerUserId =
        Except.error ErrKind.WrongListingType) ∧
    (∀ s l, findStudentByUserId db buyerUserId = some s →
      s.isActive = true →
      findListingById db listingId = some l →
      l.isAvailable = true →
      (l.listingType = "SELL" ∨ l.listingType = "BOTH") →
      l.ownerId = s.id →
      createSellOrder db listingId buyerUserId =
        Except.error ErrKind.SelfTrade) ∧
    (∀ s l, findStudentByUserId db buyerUserId = some s →
      s.isActive = true →
      findListingById db listingId = some l →
      l.isAvailable = true →
      (l.listingType = "SELL" ∨ l.listingType = "BOTH") →
      l.ownerId ≠ s.id →
      findActiveOrdersByBuyerAndListing db s.id listingId ≠ [] →
      createSellOrder db listingId buyerUserId =
        Except.error ErrKind.DuplicateActiveOrder) ∧
    (∀ s l, findStudentByUserId db buyerUserId = some s →
      s.isActive = true →
      findListingById db listingId = some l →
      l.isAvailable = true →
      (l.listingType = "SELL" ∨ l.listingType = "BOTH") →
      l.ownerId ≠ s.id →
      findActiveOrdersByBuyerAndListing db s.id listingId = [] →
      ∃ o db', createSellOrder db listingId buyerUserId = Except.ok (o, db') ∧
        o.status = "PENDING" ∧ o.type = "SELL" ∧ o.totalPrice = l.price ∧
        o.sellerId = l.ownerId ∧ o.buyerId = s.id ∧ o.id = db.nextOrderId ∧
        db'.orders = db.orders ++ [o] ∧ db'.listings = db.listings) := by
  refine ⟨?_, ?_, ?_, ?_, ?_, ?_, ?_, ?_⟩
  · intro h
    simp [createSellOrder, h]
  · intro s hs hact
    simp [createSellOrder, hs, hact]
  · intro s hs hact hl
    simp [createSellOrder, hs, hact, hl]
  · intro s l hs hact hl hav
    simp [createSellOrder, hs, hact, hl, hav]
  · intro s l hs hact hl hav ht1 ht2
    simp [createSellOrder, hs, hact, hl, hav, ht1, ht2]
  · intro s l hs hact hl hav ht hown
    rcases ht with ht | ht <;>
      simp [createSellOrder, hs, hact, hl, hav, ht, hown]
  · intro s l hs hact hl hav ht hown hdup
    have hlen : 0 < (findActiveOrdersByBuyerAndListing db s.id listingId).length :=
      List.length_pos.mpr hdup
    rcases ht with ht | ht <;>
      simp [createSellOrder, hs, hact, hl, hav, ht, hown, hlen]
  · intro s l hs hact hl hav ht hown hdup
    refine ⟨(createOrderRepo db l.id s.id l.ownerId ("SELL") ("PENDING") l.price).1,
            (createOrderRepo db l.id s.id l.ownerId ("SELL") ("PENDING") l.price).2,
            ?_, rfl, rfl, rfl, rfl, rfl, rfl, rfl, rfl⟩
    rcases ht with ht | ht <;>
      simp [createSellOrder, hs, hact, hl, hav, ht, hown, hdup]

/-- A store with an active buyer (student 1, user 101), an active seller
(student 2, user 102), a fresh available BOTH-type listing 10 priced 250,
and no orders. -/
def dbFreshListing : DB :=
  { students := [{ id := 1, userId := 101, isActive := true },
                 { id := 2, userId := 102, isActive := true }],
    listings := [{ id := 10, ownerId := 2, isAvailable := true,
                   listingType := "BOTH", price := 250 }],
    orders := [],
    nextOrderId := 0 }

/-- Claim C4 (witness): on `dbFreshListing` every precondition passes and
`createSellOrder` succeeds. -/
theorem createSellOrder_checks_in_order_witness :
    exceptIsOk (createSellOrder dbFreshListing 10 101) = true := by
  obtain ⟨o, db', heq, -⟩ :=
    (createSellOrder_checks_in_order dbFreshListing 10 101).2.2.2.2.2.2.2
      { id := 1, userId := 101, isActive := true }
      { id := 10, ownerId := 2, isAvailable := true,
        listingType := "BOTH", price := 250 }
      (by decide) (by decide) (by decide) (by decide)
      (Or.inr (by decide)) (by decide) (by decide)
  rw [heq]
  rfl

/-- Claim C5: in `updateOrderStatus`, when the order and the actor's student
profile resolve, (1) an illegal transition fails with `InvalidTransition`
before any authorization concern, even when the target is APPROVED or
REJECTED; (2) a legal transition to APPROVED or REJECTED requested by a
student who is not the order's seller fails with `NotAuthorized`; (3) the
same legal transition requested by the seller succeeds. -/
theorem updateOrderStatus_seller_gate
    (db : DB) (orderId : Nat) (newStatus : String) (userId : Nat)
    (order : Order) (student : Student)
    (ho : findOrderById db orderId = some order)
    (hs : findStudentByUserId db userId = some student) :
    (isValidTransition order.status newStatus = false →
      updateOrderStatus db orderId newStatus userId =
        Except.error ErrKind.InvalidTransition) ∧
    ((newStatus = "APPROVED" ∨ newStatus = "REJECTED") →
      isValidTransition order.status newStatus = true →
      order.sellerId ≠ student.id →
      updateOrderStatus db orderId newStatus userId =
        Except.error ErrKind.NotAuthorized) ∧
    ((newStatus = "APPROVED" ∨ newStatus = "REJECTED") →
      isValidTransition order.status newStatus = true →
      order.sellerId = student.id →
      exceptIsOk (updateOrderStatus db orderId newStatus userId) = true) := by
  refine ⟨?_, ?_, ?_⟩
  · intro hbad
    simp [updateOrderStatus, ho, hs, validateStatusTransition, hbad]
  · intro htgt hgood hnotseller
    rcases htgt with rfl | rfl <;>
      simp [updateOrderStatus, ho, hs, validateStatusTransition, hgood,
        hnotseller]
  · intro htgt hgood hseller
    rcases htgt with rfl | rfl <;>
      simp [updateOrderStatus, ho, hs, validateStatusTransition, hgood,
        hseller, exceptIsOk]

/-- A store with one NEGOTIATING order (order 0, buyer student 1 / user 101,
seller student 2 / user 102) on listing 10. -/
def dbNegotiating : DB :=
  { students := [{ id := 1, userId := 101, isActive := true },
                 { id := 2, userId := 102, isActive := true }],
    listings := [{ id := 10, ownerId := 2, isAvailable := true,
                   listingType := "SELL", price := 100 }],
    orders := [{ id := 0, listingId := 10, buyerId := 1, sellerId := 2,
                 type := "SELL", status := "NEGOTIATING", totalPrice := 100 }],
    nextOrderId := 1 }

/-- Claim C5 (witness): the buyer (user 101) attempting the legal transition
NEGOTIATING → APPROVED on `dbNegotiating` is rejected with
`NotAuthorized`. -/
theorem updateOrderStatus_seller_gate_witness :
    updateOrderStatus dbNegotiating 0 ("APPROVED") 101 =
      Except.error ErrKind.NotAuthorized :=
  (updateOrderStatus_seller_gate dbNegotiating 0 ("APPROVED") 101
      { id := 0, listingId := 10, buyerId := 1, sellerId := 2,
        type := "SELL", status := "NEGOTIATING", totalPrice := 100 }
      { id := 1, userId := 101, isActive := true }
      (by decide) (by decide)).2.1
    (Or.inl rfl) (by decide) (by decide)

/-- Shape of a successful `updateOrderStatus` run: the order and the actor's
student profile resolved, the returned order is the loaded order with the
new status, and the final store is the status write followed — only for
COMPLETED — by the listing-availability write. -/
theorem updateOrderStatus_ok_shape
    (db : DB) (orderId : Nat) (newStatus : String) (userId : Nat)
    (o : Order) (db' : DB)
    (h : updateOrderStatus db orderId newStatus userId = Except.ok (o, db')) :
    ∃ order student,
      findOrderById db orderId = some order ∧
      findStudentByUserId db userId = some student ∧
      o = { order with status := newStatus } ∧
      db' = (if newStatus == "COMPLETED" then
               updateListingAvailability (updateOrderStatusRepo db orderId newStatus)
                 order.listingId false
             else
               updateOrderStatusRepo db orderId newStatus) := by
  unfold updateOrderStatus at h
  cases hfo : findOrderById db orderId with
  | none => simp only [hfo] at h; exact Except.noConfusion h
  | some order =>
    simp only [hfo] at h
    cases hfs : findStudentByUserId db userId with
    | none => simp only [hfs] at h; exact Except.noConfusion h
    | some student =>
      simp only [hfs] at h
      cases hvt : validateStatusTransition order.status newStatus with
      | error e => simp only [hvt] at h; exact Except.noConfusion h
      | ok u =>
        simp only [hvt] at h
        by_cases hauth : ((newStatus == "APPROVED" || newStatus == "REJECTED") &&
            !(order.sellerId == student.id)) = true
        · rw [if_pos hauth] at h; exact Except.noConfusion h
        · rw [if_neg hauth] at h
          simp only [Except.ok.injEq, Prod.mk.injEq] at h
          exact ⟨order, student, rfl, rfl, h.1.symm, h.2.symm⟩

/-- Claim C6: whenever `updateOrderStatus` succeeds with new status
COMPLETED, every listing row carrying the order's `listingId` ends with
`isAvailable = false`; whenever it succeeds with any other new status, the
listing table is left untouched. -/
theorem updateOrderStatus_completed_flips_listing
    (db : DB) (orderId : Nat) (newStatus : String) (userId : Nat)
    (o : Order) (db' : DB)
    (h : updateOrderStatus db orderId newStatus userId = Except.ok (o, db')) :
    (newStatus = "COMPLETED" →
      db'.listings.all (fun l => !(l.id == o.listingId) || !l.isAvailable) = true) ∧
    (newStatus ≠ "COMPLETED" → db'.listings = db.listings) := by
  obtain ⟨order, student, hfo, hfs, ho, hdb⟩ :=
    updateOrderStatus_ok_shape db orderId newStatus userId o db' h
  constructor
  · rintro rfl
    subst ho; subst hdb
    simp [updateListingAvailability, updateOrderStatusRepo, List.all_eq_true,
      List.mem_map]
    intro l hl
    by_cases hid : l.id = order.listingId <;> simp [hid]
  · intro hne
    have hb : (newStatus == "COMPLETED") = false := by
      simpa using hne
    subst hdb
    simp [hb, updateOrderStatusRepo]

/-- A store with one PAID order (order 0, buyer student 1 / user 101, seller
student 2 / user 102) on the still-available listing 10. -/
def dbPaidForCompletion : DB :=
  { students := [{ id := 1, userId := 101, isActive := true },
                 { id := 2, userId := 102, isActive := true }],
    listings := [{ id := 10, ownerId := 2, isAvailable := true,
                   listingType := "SELL", price := 100 }],
    orders := [{ id := 0, listingId := 10, buyerId := 1, sellerId := 2,
                 type := "SELL", status := "PAID", totalPrice := 100 }],
    nextOrderId := 1 }

/-- The order returned by completing order 0 of `dbPaidForCompletion`. -/
def orderAfterCompletion : Order :=
  { id := 0, listingId := 10, buyerId := 1, sellerId := 2,
    type := "SELL", status := "COMPLETED", totalPrice := 100 }

/-- The store left by completing order 0 of `dbPaidForCompletion`: the order
is COMPLETED and listing 10 is no longer available. -/
def dbAfterCompletion : DB :=
  { students := [{ id := 1, userId := 101, isActive := true },
                 { id := 2, userId := 102, isActive := true }],
    listings := [{ id := 10, ownerId := 2, isAvailable := false,
                   listingType := "SELL", price := 100 }],
    orders := [orderAfterCompletion],
    nextOrderId := 1 }

/-- Claim C6 (witness): completing the PAID order of `dbPaidForCompletion`
leaves listing 10 unavailable. -/
theorem updateOrderStatus_completed_flips_listing_witness :
    dbAfterCompletion.listings.all
      (fun l => !(l.id == orderAfterCompletion.listingId) || !l.isAvailable) = true :=
  (updateOrderStatus_completed_flips_listing dbPaidForCompletion 0 ("COMPLETED")
    101 orderAfterCompletion dbAfterCompletion (by decide)).1 rfl

/-- Shape of a successful `cancelOrder` run: the order and the actor's
student profile resolved, the status was cancellable, the actor is buyer or
seller, the returned order is the loaded order with status CANCELLED, and
the final store is exactly the status write — listings untouched. -/
theorem cancelOrder_ok_shape
    (db : DB) (orderId userId : Nat) (o : Order) (db' : DB)
    (h : cancelOrder db orderId userId = Except.ok (o, db')) :
    ∃ order student,
      findOrderById db orderId = some order ∧
      findStudentByUserId db userId = some student ∧
      cannotCancel order.status = false ∧
      (order.buyerId = student.id ∨ order.sellerId = student.id) ∧
      o = { order with status := "CANCELLED" } ∧
      db' = updateOrderStatusRepo db orderId ("CANCELLED") := by
  unfold cancelOrder at h
  cases hfo : findOrderById db orderId with
  | none => simp only [hfo] at h; exact Except.noConfusion h
  | some order =>
    simp only [hfo] at h
    cases hfs : findStudentByUserId db userId with
    | none => simp only [hfs] at h; exact Except.noConfusion h
    | some student =>
      simp only [hfs] at h
      cases hvc : validateCancellation order.status with
      | error e => simp only [hvc] at h; exact Except.noConfusion h
      | ok u =>
        simp only [hvc] at h
        by_cases hrole : (!(order.buyerId == student.id) &&
            !(order.sellerId == student.id)) = true
        · rw [if_pos hrole] at h; exact Except.noConfusion h
        · rw [if_neg hrole] at h
          simp only [Except.ok.injEq, Prod.mk.injEq] at h
          have hcc : cannotCancel order.status = false := by
            by_cases hc : cannotCancel order.status = true
            · rw [validateCancellation, if_pos hc] at hvc
              exact Except.noConfusion hvc
            · simpa using hc
          have hrole2 : order.buyerId = student.id ∨ order.sellerId = student.id := by
            have := by simpa using hrole
            tauto
          exact ⟨order, student, rfl, rfl, hcc, hrole2, h.1.symm, h.2.symm⟩

/-- Claim C7: every successful `cancelOrder` returns the order with status
CANCELLED, persists CANCELLED on the stored row, and leaves the listing
table entirely unchanged; a non-participant cancelling a cancellable order
fails with `NotAuthorized`; and the cancellability check runs first, so
cancelling a PAID order — even as a non-participant — fails with
`CancellationNotAllowed`. -/
theorem cancelOrder_spec
    (db : DB) (orderId userId : Nat) (order : Order) (student : Student)
    (ho : findOrderById db orderId = some order)
    (hs : findStudentByUserId db userId = some student) :
    (∀ o db', cancelOrder db orderId userId = Except.ok (o, db') →
      o.status = "CANCELLED" ∧ db'.listings = db.listings ∧
      db'.orders.all (fun p =>
        !(p.id == orderId) || (p.status == "CANCELLED")) = true) ∧
    (cannotCancel order.status = false →
      order.buyerId ≠ student.id → order.sellerId ≠ student.id →
      cancelOrder db orderId userId = Except.error ErrKind.NotAuthorized) ∧
    (order.status = "PAID" →
      cancelOrder db orderId userId =
        Except.error ErrKind.CancellationNotAllowed) := by
  refine ⟨?_, ?_, ?_⟩
  · intro o db' h
    obtain ⟨order1, student1, hfo1, hfs1, hcc, hrole, hoeq, hdbeq⟩ :=
      cancelOrder_ok_shape db orderId userId o db' h
    subst hoeq; subst hdbeq
    refine ⟨rfl, rfl, ?_⟩
    simp [updateOrderStatusRepo, List.all_eq_true, List.mem_map]
    intro p hp
    by_cases hid : p.id = orderId <;> simp [hid]
  · intro hcc hnb hns
    simp [cancelOrder, ho, hs, validateCancellation, hcc, hnb, hns]
  · intro hpaid
    simp [cancelOrder, ho, hs, validateCancellation, cannotCancel,
      nonCancellableStatuses, hpaid]

/-- A store with one PAID order (buyer student 1, seller student 2) on
listing 10, and a third active student 3 (user 103) unrelated to the
order. -/
def dbPaidCancel : DB :=
  { students := [{ id := 1, userId := 101, isActive := true },
                 { id := 2, userId := 102, isActive := true },
                 { id := 3, userId := 103, isActive := true }],
    listings := [{ id := 10, ownerId := 2, isAvailable := true,
                   listingType := "SELL", price := 100 }],
    orders := [{ id := 0, listingId := 10, buyerId := 1, sellerId := 2,
                 type := "SELL", status := "PAID", totalPrice := 100 }],
    nextOrderId := 1 }

/-- Claim C7 (witness): the unrelated student 3 cancelling the PAID order of
`dbPaidCancel` is rejected with `CancellationNotAllowed`, not
`NotAuthorized`. -/
theorem cancelOrder_spec_witness :
    cancelOrder dbPaidCancel 0 103 =
      Except.error ErrKind.CancellationNotAllowed :=
  (cancelOrder_spec dbPaidCancel 0 103
      { id := 0, listingId := 10, buyerId := 1, sellerId := 2,
        type := "SELL", status := "PAID", totalPrice := 100 }
      { id := 3, userId := 103, isActive := true }
      (by decide) (by decide)).2.2 rfl

/-- Shape of a successful `createSellOrder` run: the buyer resolved to a
student, the listing resolved, the owner differs from the buyer, the
returned order is the fresh PENDING SELL row, and the final store appends
exactly that row. -/
theorem createSellOrder_ok_shape
    (db : DB) (listingId buyerUserId : Nat) (o : Order) (db' : DB)
    (h : createSellOrder db listingId buyerUserId = Except.ok (o, db')) :
    ∃ s l, findStudentByUserId db buyerUserId = some s ∧
      findListingById db listingId = some l ∧
      l.ownerId ≠ s.id ∧
      o = { id := db.nextOrderId, listingId := l.id, buyerId := s.id,
            sellerId := l.ownerId, type := "SELL", status := "PENDING",
            totalPrice := l.price } ∧
      db' = { db with orders := db.orders ++ [o],
                      nextOrderId := db.nextOrderId + 1 } := by
  unfold createSellOrder at h
  cases hfs : findStudentByUserId db buyerUserId with
  | none => simp only [hfs] at h; exact Except.noConfusion h
  | some s =>
    simp only [hfs] at h
    by_cases hact : (!s.isActive) = true
    · rw [if_pos hact] at h; exact Except.noConfusion h
    · rw [if_neg hact] at h
      cases hfl : findListingById db listingId with
      | none => simp only [hfl] at h; exact Except.noConfusion h
      | some l =>
        simp only [hfl] at h
        by_cases hav : (!l.isAvailable) = true
        · rw [if_pos hav] at h; exact Except.noConfusion h
        · rw [if_neg hav] at h
          by_cases ht : (l.listingType != "SELL" && l.listingType != "BOTH") = true
          · rw [if_pos ht] at h; exact Except.noConfusion h
          · rw [if_neg ht] at h
            by_cases hown : (l.ownerId == s.id) = true
            · rw [if_pos hown] at h; exact Except.noConfusion h
            · rw [if_neg hown] at h
              by_cases hdup :
                  (findActiveOrdersByBuyerAndListing db s.id listingId).length > 0
              · rw [if_pos hdup] at h; exact Except.noConfusion h
              · rw [if_neg hdup] at h
                simp only [createOrderRepo, Except.ok.injEq, Prod.mk.injEq] at h
                obtain ⟨h1, h2⟩ := h
                subst h1
                exact ⟨s, l, rfl, rfl, by simpa using hown, rfl, h2.symm⟩

/-- The order-table invariant of the data model: no order names the same
student as both buyer and seller. -/
def ordersBuyerNeSeller (db : DB) : Bool :=
  db.orders.all (fun o => !(o.buyerId == o.sellerId))

/-- `OrderRepository.updateOrderStatus` rewrites only the status field, so it
preserves the buyer-is-not-seller invariant. -/
theorem ordersBuyerNeSeller_updateStatus (db : DB) (orderId : Nat) (st : String)
    (hinv : ordersBuyerNeSeller db = true) :
    ordersBuyerNeSeller (updateOrderStatusRepo db orderId st) = true := by
  simp [ordersBuyerNeSeller, updateOrderStatusRepo, List.all_eq_true,
    List.mem_map] at hinv ⊢
  intro o ho
  by_cases hid : o.id = orderId <;> simp [hid, hinv o ho]

/-- Claim C9: every order ever persisted satisfies buyerId ≠ sellerId. A
successful `createSellOrder` returns an order whose buyer differs from its
seller (the SelfTrade check plus sellerId being copied from the listing's
owner) and preserves the invariant over the store, and `updateOrderStatus`
and `cancelOrder` touch only order statuses, so they preserve it as well. -/
theorem orders_buyer_ne_seller_invariant
    (db : DB) (hinv : ordersBuyerNeSeller db = true) :
    (∀ listingId buyerUserId o db',
      createSellOrder db listingId buyerUserId = Except.ok (o, db') →
      o.buyerId ≠ o.sellerId ∧ ordersBuyerNeSeller db' = true) ∧
    (∀ orderId newStatus userId o db',
      updateOrderStatus db orderId newStatus userId = Except.ok (o, db') →
      ordersBuyerNeSeller db' = true) ∧
    (∀ orderId userId o db',
      cancelOrder db orderId userId = Except.ok (o, db') →
      ordersBuyerNeSeller db' = true) := by
  refine ⟨?_, ?_, ?_⟩
  · intro listingId buyerUserId o db' h
    obtain ⟨s, l, hfs, hfl, hown, hoeq, hdbeq⟩ :=
      createSellOrder_ok_shape db listingId buyerUserId o db' h
    subst hoeq; subst hdbeq
    refine ⟨by simpa using Ne.symm hown, ?_⟩
    simp [ordersBuyerNeSeller, List.all_eq_true] at hinv ⊢
    exact ⟨fun p hp => hinv p hp, Ne.symm hown⟩
  · intro orderId newStatus userId o db' h
    obtain ⟨order, student, hfo, hfs, hoeq, hdbeq⟩ :=
      updateOrderStatus_ok_shape db orderId newStatus userId o db' h
    subst hdbeq
    by_cases hc : (newStatus == "COMPLETED") = true
    · rw [if_pos hc]
      exact ordersBuyerNeSeller_updateStatus db orderId newStatus hinv
    · rw [if_neg hc]
      exact ordersBuyerNeSeller_updateStatus db orderId newStatus hinv
  · intro orderId userId o db' h
    obtain ⟨order, student, hfo, hfs, hcc, hrole, hoeq, hdbeq⟩ :=
      cancelOrder_ok_shape db orderId userId o db' h
    subst hdbeq
    exact ordersBuyerNeSeller_updateStatus db orderId ("CANCELLED") hinv

/-- A store with two active students, listing 20 owned by student 2, and no
orders yet. -/
def dbInvFresh : DB :=
  { students := [{ id := 1, userId := 101, isActive := true },
                 { id := 2, userId := 102, isActive := true }],
    listings := [{ id := 20, ownerId := 2, isAvailable := true,
                   listingType := "SELL", price := 50 }],
    orders := [],
    nextOrderId := 0 }

/-- The order created by `createSellOrder` on `dbInvFresh`. -/
def orderInvNew : Order :=
  { id := 0, listingId := 20, buyerId := 1, sellerId := 2,
    type := "SELL", status := "PENDING", totalPrice := 50 }

/-- The store left by `createSellOrder` on `dbInvFresh`. -/
def dbInvAfter : DB :=
  { students := [{ id := 1, userId := 101, isActive := true },
                 { id := 2, userId := 102, isActive := true }],
    listings := [{ id := 20, ownerId := 2, isAvailable := true,
                   listingType := "SELL", price := 50 }],
    orders := [orderInvNew],
    nextOrderId := 1 }

/-- Claim C9 (witness): creating an order on `dbInvFresh` yields a store
still satisfying the buyer-is-not-seller invariant. -/
theorem orders_buyer_ne_seller_invariant_witness :
    ordersBuyerNeSeller dbInvAfter = true :=
  ((orders_buyer_ne_seller_invariant dbInvFresh (by decide)).1
    20 101 orderInvNew dbInvAfter (by decide)).2

/-- Claim C10: for a target status other than APPROVED or REJECTED,
`updateOrderStatus` demands of the actor only that some student profile
exists — neither that the student is the order's buyer or seller, nor that
the student is active — so any third-party or deactivated student can drive
such transitions; `cancelOrder` likewise never reads the student's
`isActive` flag, while `createSellOrder` rejects inactive students with
`InactiveAccount`. -/
theorem updateOrderStatus_no_role_or_active_check
    (db : DB) :
    (∀ orderId newStatus userId order student,
      findOrderById db orderId = some order →
      findStudentByUserId db userId = some student →
      newStatus ≠ "APPROVED" → newStatus ≠ "REJECTED" →
      isValidTransition order.status newStatus = true →
      exceptIsOk (updateOrderStatus db orderId newStatus userId) = true) ∧
    (∀ orderId userId order student,
      findOrderById db orderId = some order →
      findStudentByUserId db userId = some student →
      student.isActive = false →
      order.buyerId = student.id →
      cannotCancel order.status = false →
      exceptIsOk (cancelOrder db orderId userId) = true) ∧
    (∀ listingId buyerUserId s,
      findStudentByUserId db buyerUserId = some s →
      s.isActive = false →
      createSellOrder db listingId buyerUserId =
        Except.error ErrKind.InactiveAccount) := by
  refine ⟨?_, ?_, ?_⟩
  · intro orderId newStatus userId order student ho hs hna hnr hgood
    simp [updateOrderStatus, ho, hs, validateStatusTransition, hgood, hna, hnr,
      exceptIsOk]
  · intro orderId userId order student ho hs hinact hbuyer hcc
    simp [cancelOrder, ho, hs, validateCancellation, hcc, hbuyer, exceptIsOk]
  · intro listingId buyerUserId s hs hinact
    simp [createSellOrder, hs, hinact]

/-- A store with a PAID order between students 1 and 2, and a deactivated
third student 3 (user 103) unrelated to the order. -/
def dbThirdParty : DB :=
  { students := [{ id := 1, userId := 101, isActive := true },
                 { id := 2, userId := 102, isActive := true },
                 { id := 3, userId := 103, isActive := false }],
    listings := [{ id := 10, ownerId := 2, isAvailable := true,
                   listingType := "SELL", price := 100 }],
    orders := [{ id := 0, listingId := 10, buyerId := 1, sellerId := 2,
                 type := "SELL", status := "PAID", totalPrice := 100 }],
    nextOrderId := 1 }

/-- Claim C10 (witness): the deactivated, unrelated student 3 successfully
drives PAID → COMPLETED on someone else's order in `dbThirdParty`. -/
theorem updateOrderStatus_no_role_or_active_check_witness :
    exceptIsOk (updateOrderStatus dbThirdParty 0 ("COMPLETED") 103) = true :=
  (updateOrderStatus_no_role_or_active_check dbThirdParty).1 0 ("COMPLETED") 103
    { id := 0, listingId := 10, buyerId := 1, sellerId := 2,
      type := "SELL", status := "PAID", totalPrice := 100 }
    { id := 3, userId := 103, isActive := false }
    (by decide) (by decide) (by decide) (by decide) (by decide)
